import Mathlib

/-!
Verification of the ds5ctl DualSense output-report encoder and transport
send loop, shallowly embedded from the Python source (`ds5ctl/hid.py`,
`ds5ctl/__init__.py`, `ds5ctl/gui.py`).

Machine bytes are modelled as `Nat` with explicit `% 256` wherever the
source's ctypes `c_ubyte` fields wrap; lists of `Nat` stand for Python
`bytes` values.
-/

namespace Ds5ctl

/-- Trigger effect variants: the `TriggerEffect` class hierarchy of
`hid.py` (base class = the default, tag `0x00`, empty body; five
subclasses). Parameters are byte values. -/
inductive TriggerEffect where
  | default
  | continuousResistance (start_pos force : Nat)
  | sectionResistance (start_pos force : Nat)
  | vibrating (frequency off_time : Nat)
  | effectExtended (start_pos : Nat) (keep_effect : Bool)
      (begin_force middle_force end_force frequency : Nat)
  | calibrate
deriving DecidableEq

/-- The class attribute `TYPE` of each `TriggerEffect` subclass
(`TriggerEffectType` values in `hid.py`). The base class has `TYPE = 0`. -/
def TriggerEffect.tag : TriggerEffect → Nat
  | .default => 0x00
  | .continuousResistance _ _ => 0x01
  | .sectionResistance _ _ => 0x02
  | .vibrating _ _ => 0x06
  | .effectExtended _ _ _ _ _ _ => 0x23
  | .calibrate => 0xfc

/-- The `data()` method of each `TriggerEffect` subclass: the variant body
before padding. `EffectExtendedTriggerEffect.data` is
`[0xff - start_pos, 0x02 if keep_effect else 0x00, 0x00, begin_force,
middle_force, end_force, 0x00, 0x00, max(1, frequency // 2)]`. -/
def TriggerEffect.data : TriggerEffect → List Nat
  | .default => []
  | .continuousResistance sp f => [sp, f]
  | .sectionResistance sp f => [sp, f]
  | .vibrating fr ot => [fr, ot]
  | .effectExtended sp ke bf mf ef fr =>
      [0xff - sp, if ke then 0x02 else 0x00, 0x00, bf, mf, ef, 0x00, 0x00,
       max 1 (fr / 2)]
  | .calibrate => []

/-- `TriggerEffect.__bytes__`: the 1-byte tag followed by the body
left-justified to 10 bytes with zero fill
(`self.TYPE.to_bytes(1, 'little') + bytes(self.data()).ljust(10, b'\x00')`). -/
def TriggerEffect.toBytes (t : TriggerEffect) : List Nat :=
  t.tag :: (t.data ++ List.replicate (10 - t.data.length) 0)

/-- Initialization of a fixed-size ctypes byte array
(`(ct.c_ubyte * n)(*xs)`): the supplied bytes followed by zero fill up to
the array length. (ctypes rejects more than `n` initializers; all uses in
the program supply at most `n`.) -/
def fitBytes (n : Nat) (xs : List Nat) : List Nat :=
  xs.take n ++ List.replicate (n - xs.length) 0

/-- The output-report model: the fields of `DualSenseHIDOutput` /
`build_output_data` in `hid.py`, mirrored by the mutable
`DualSenseHIDModel` of `gui.py`. All scalar fields are bytes. -/
structure Model where
  operating_mode : Nat := 0
  physical_effect_control : Nat := 0
  light_effect_control : Nat := 0
  motor_right : Nat := 0
  motor_left : Nat := 0
  unknown2 : List Nat := []
  mute_button_led : Nat := 0
  power_save_control : Nat := 0
  right_trigger_effect : TriggerEffect := .default
  left_trigger_effect : TriggerEffect := .default
  unknown3 : List Nat := []
  lightbar_control : Nat := 0
  lightbar_setup : Nat := 0
  led_brightness : Nat := 0
  player_leds : Nat := 0
  lightbar_red : Nat := 0
  lightbar_green : Nat := 0
  lightbar_blue : Nat := 0
deriving DecidableEq

/-- Serialization of the ctypes structure `DualSenseHIDOutput` built by
`build_output_data` (`hid.py`): all fields are `c_ubyte` or `c_ubyte`
arrays, so the layout is strictly sequential with no alignment padding and
the struct is 48 bytes. ctypes wraps integer assignments modulo 256. -/
def structBytes (m : Model) : List Nat :=
  [m.operating_mode % 256, m.physical_effect_control % 256,
   m.light_effect_control % 256, m.motor_right % 256, m.motor_left % 256]
  ++ fitBytes 4 (m.unknown2.map (· % 256))
  ++ [m.mute_button_led % 256, m.power_save_control % 256]
  ++ m.right_trigger_effect.toBytes
  ++ m.left_trigger_effect.toBytes
  ++ fitBytes 8 (m.unknown3.map (· % 256))
  ++ [m.lightbar_control % 256, m.lightbar_setup % 256,
      m.led_brightness % 256, m.player_leds % 256, m.lightbar_red % 256,
      m.lightbar_green % 256, m.lightbar_blue % 256]

/-- The legacy packed encoder `pack_output_data` of `hid.py`:
`struct.pack('<BBBBB 4x BB 11s11s 6x x 2x BBBBBB', ...)` followed by
`.ljust(64, b'\x00')`. Its positional arguments place
`light_effect_control` at offset 0x01 and `lightbar_control` at offset
0x02; it has no `physical_effect_control` parameter and no unknown-region
parameters (those offsets are pad bytes). -/
def packBytes (m : Model) : List Nat :=
  [m.operating_mode % 256, m.light_effect_control % 256,
   m.lightbar_control % 256, m.motor_right % 256, m.motor_left % 256]
  ++ List.replicate 4 0
  ++ [m.mute_button_led % 256, m.power_save_control % 256]
  ++ m.right_trigger_effect.toBytes
  ++ m.left_trigger_effect.toBytes
  ++ List.replicate 9 0
  ++ [m.lightbar_setup % 256, m.led_brightness % 256, m.player_leds % 256,
      m.lightbar_red % 256, m.lightbar_green % 256, m.lightbar_blue % 256]
  ++ List.replicate 16 0

/-- The structure encoder's bytes zero-padded on the right to the 64-byte
report size (as done at every call site that sends them,
e.g. `bytes(data).ljust(64, b'\x00')`). -/
def buildPadded (m : Model) : List Nat :=
  structBytes m ++ List.replicate 16 0

/-- Normalization applied by `send_to_controller` (`__init__.py`) to the
externally supplied raw hex override before writing:
`bytes.fromhex(hex_data)[:64].ljust(64, b'\x00')`. -/
def sendNormalize (raw : List Nat) : List Nat :=
  raw.take 64 ++ List.replicate (64 - (raw.take 64).length) 0

/-- The model as constructed with every field zero (triggers at the
default, zero-tag effect; unknown regions empty). -/
def zeroModel : Model := {}

/-- A model with `player_leds = 0x07` and every other field zero. -/
def playerLedsOnlyModel : Model := { player_leds := 0x07 }

/-- A model with `light_effect_control = 1` and every other field zero. -/
def lightEffectOnlyModel : Model := { light_effect_control := 1 }

/-- The `_fields_` table of `DualSenseHIDOutput` in `hid.py`: field names
with their byte widths, in declaration order. -/
def dsFields : List (String × Nat) :=
  [("operating_mode", 1), ("physical_effect_control", 1),
   ("light_effect_control", 1), ("motor_right", 1), ("motor_left", 1),
   ("unknown2", 4), ("mute_button_led", 1), ("power_save_control", 1),
   ("right_trigger_effect", 11), ("left_trigger_effect", 11),
   ("unknown3", 8), ("lightbar_control", 1), ("lightbar_setup", 1),
   ("led_brightness", 1), ("player_leds", 1), ("lightbar_red", 1),
   ("lightbar_green", 1), ("lightbar_blue", 1)]

/-- Sequential offset computation over the field table, exactly as
`DualSenseHIDOutput.get_offset_table` accumulates `pos += size`: the
offset of a field is the sum of the widths of all fields before it. -/
def offsetOf (name : String) : Nat :=
  (dsFields.takeWhile (fun p => p.1 ≠ name)).foldl (fun acc p => acc + p.2) 0

/-- The named PlayerLED flag constants of `hid.py`. -/
def PlayerLED.CENTER : Nat := 1 <<< 2

/-- PlayerLED.INNER is the composite of bits 1 and 3. -/
def PlayerLED.INNER : Nat := 1 <<< 1 ||| 1 <<< 3

/-- PlayerLED.OUTER is the composite of bits 0 and 4. -/
def PlayerLED.OUTER : Nat := 1 <<< 0 ||| 1 <<< 4

/-- The union of all PlayerLED flag bits (bits 0..4). Python's
`IntFlag.__invert__` complements within this universe, so
`value &= ~flag` is `value &&& (mask ^^^ flag)`. -/
def PlayerLED.MASK : Nat := PlayerLED.CENTER ||| PlayerLED.INNER ||| PlayerLED.OUTER

/-- The named flags the GUI's PlayerLED checkbox group iterates over. -/
inductive PlayerLEDFlag where
  | center
  | inner
  | outer
deriving DecidableEq

/-- Bit pattern of each named PlayerLED flag. -/
def PlayerLEDFlag.bits : PlayerLEDFlag → Nat
  | .center => PlayerLED.CENTER
  | .inner => PlayerLED.INNER
  | .outer => PlayerLED.OUTER

/-- The checkbox mutation `set_value` of `DualSenseUI._add_flag_group`
(`gui.py`): when checking, `value |= flag`; when unchecking,
`value &= ~flag`, with `~` the IntFlag complement within the flag
universe. -/
def toggleFlag (value : Nat) (f : PlayerLEDFlag) (checked : Bool) : Nat :=
  if checked then value ||| f.bits else value &&& (PlayerLED.MASK ^^^ f.bits)

/-- The composite-flag shape: bits 1 and 3 (INNER) agree and bits 0 and 4
(OUTER) agree, i.e. no strict subset of a composite flag's bits is set. -/
def compositeIntact (v : Nat) : Prop :=
  (v.testBit 1 = v.testBit 3) ∧ (v.testBit 0 = v.testBit 4)

instance : DecidablePred compositeIntact := fun v => by
  unfold compositeIntact; infer_instance

/-- The member values of the `MuteButton` enumeration in `hid.py`
(OFF = 0, ON = 1, PULSE = 2), i.e. the values offered by the GUI's
radio group for `mute_button_led`. -/
def muteButtonValues : List Nat := [0, 1 <<< 0, 1 <<< 1]

/-- The member values of the `LightbarSetup` enumeration in `hid.py`
(LIGHT_ON = 1, LIGHT_OUT = 2). -/
def lightbarSetupValues : List Nat := [1 <<< 0, 1 <<< 1]

/-- Mutation of `mute_button_led` through the radio group
(`DualSenseUI._add_radio_group.set_value`): the radio offers exactly the
enumeration's members, and the selected item is looked up among them; a
value outside the enumeration corresponds to no offered item, so the
mutation is rejected (`none`) rather than stored. -/
def radioSetMuteButtonLed (m : Model) (v : Nat) : Option Model :=
  if v ∈ muteButtonValues then some { m with mute_button_led := v } else none

/-- Mutation of `lightbar_setup` through its radio group; same lookup
discipline as `radioSetMuteButtonLed`. -/
def radioSetLightbarSetup (m : Model) (v : Nat) : Option Model :=
  if v ∈ lightbarSetupValues then some { m with lightbar_setup := v } else none

/-- `NUM_ATTEMPTS` in `send_to_controller`. -/
def NUM_ATTEMPTS : Nat := 3

/-- Observable events of one `send_to_controller` call: a write attempt
with its loop index, or a reconnect (close + reopen of the device). -/
inductive SendEvent where
  | attempt (i : Nat)
  | reconnect
deriving DecidableEq

/-- Outcome of `send_to_controller`: the byte count returned by the
successful `d.write`, or exhaustion of the retry budget (the `for`/`else`
branch reporting the terminal failure). -/
inductive SendResult where
  | success (count : Nat)
  | exhausted
deriving DecidableEq

/-- The body of `send_to_controller`'s retry loop: at loop index `i` with
`r` attempts remaining, try the transport; on success stop with the byte
count, on an IOError record a reconnect and continue with the next index.
The transport is a stub mapping the attempt index to `some count`
(successful write) or `none` (IOError). -/
def sendAux (t : Nat → Option Nat) : Nat → Nat → List SendEvent × SendResult
  | _, 0 => ([], .exhausted)
  | i, r + 1 =>
    match t i with
    | some n => ([.attempt i], .success n)
    | none =>
      let rest := sendAux t (i + 1) r
      (.attempt i :: .reconnect :: rest.1, rest.2)

/-- `send_to_controller` (`__init__.py`): run the retry loop from index 0
with the fixed budget of `NUM_ATTEMPTS` attempts. -/
def sendToController (t : Nat → Option Nat) : List SendEvent × SendResult :=
  sendAux t 0 NUM_ATTEMPTS

/-- Number of write attempts recorded in a trace. -/
def numAttemptEvents : List SendEvent → Nat
  | [] => 0
  | SendEvent.attempt _ :: rest => numAttemptEvents rest + 1
  | SendEvent.reconnect :: rest => numAttemptEvents rest

/-- Number of reconnects that happen in between attempts, i.e. reconnect
events that are followed by a later write attempt in the trace. -/
def reconnectsBetween : List SendEvent → Nat
  | [] => 0
  | SendEvent.reconnect :: rest =>
      (if 0 < numAttemptEvents rest then 1 else 0) + reconnectsBetween rest
  | SendEvent.attempt _ :: rest => reconnectsBetween rest

/-- Transport stub whose writes fail with IOError on the first two
attempts and then succeed, returning `n` bytes written. -/
def failTwiceThen (n : Nat) : Nat → Option Nat :=
  fun i => if i < 2 then none else some n

/-- Transport stub whose writes always fail with IOError. -/
def alwaysFail : Nat → Option Nat := fun _ => none

/-! ### Helper lemmas -/

lemma TriggerEffect.toBytes_length (t : TriggerEffect) : t.toBytes.length = 11 := by
  cases t <;> rfl

lemma TriggerEffect.toBytes_eq (t : TriggerEffect) :
    ∃ c0 c1 c2 c3 c4 c5 c6 c7 c8 c9 c10,
      t.toBytes = [c0, c1, c2, c3, c4, c5, c6, c7, c8, c9, c10] := by
  cases t <;> exact ⟨_, _, _, _, _, _, _, _, _, _, _, rfl⟩

lemma fitBytes_length (n : Nat) (xs : List Nat) : (fitBytes n xs).length = n := by
  simp [fitBytes]
  omega

lemma list_four_eq (l : List Nat) (hl : l.length = 4) :
    ∃ a b c d, l = [a, b, c, d] := by
  obtain ⟨a, l1, rfl⟩ := List.exists_of_length_succ l hl
  simp only [List.length_cons] at hl
  obtain ⟨b, l2, rfl⟩ := List.exists_of_length_succ l1 (show l1.length = 2 + 1 by omega)
  simp only [List.length_cons] at hl
  obtain ⟨c, l3, rfl⟩ := List.exists_of_length_succ l2 (show l2.length = 1 + 1 by omega)
  simp only [List.length_cons] at hl
  obtain ⟨d, l4, rfl⟩ := List.exists_of_length_succ l3 (show l3.length = 0 + 1 by omega)
  simp only [List.length_cons] at hl
  have h4 : l4 = [] := List.length_eq_zero.mp (by omega)
  exact ⟨a, b, c, d, by rw [h4]⟩

lemma list_eight_eq (l : List Nat) (hl : l.length = 8) :
    ∃ a b c d e f g k, l = [a, b, c, d, e, f, g, k] := by
  obtain ⟨a, l1, rfl⟩ := List.exists_of_length_succ l hl
  simp only [List.length_cons] at hl
  obtain ⟨b, l2, rfl⟩ := List.exists_of_length_succ l1 (show l1.length = 6 + 1 by omega)
  simp only [List.length_cons] at hl
  obtain ⟨c, l3, rfl⟩ := List.exists_of_length_succ l2 (show l2.length = 5 + 1 by omega)
  simp only [List.length_cons] at hl
  obtain ⟨d, l4, rfl⟩ := List.exists_of_length_succ l3 (show l3.length = 4 + 1 by omega)
  simp only [List.length_cons] at hl
  obtain ⟨e, l5, rfl⟩ := List.exists_of_length_succ l4 (show l4.length = 3 + 1 by omega)
  simp only [List.length_cons] at hl
  obtain ⟨f, l6, rfl⟩ := List.exists_of_length_succ l5 (show l5.length = 2 + 1 by omega)
  simp only [List.length_cons] at hl
  obtain ⟨g, l7, rfl⟩ := List.exists_of_length_succ l6 (show l6.length = 1 + 1 by omega)
  simp only [List.length_cons] at hl
  obtain ⟨k, l8, rfl⟩ := List.exists_of_length_succ l7 (show l7.length = 0 + 1 by omega)
  simp only [List.length_cons] at hl
  have h8 : l8 = [] := List.length_eq_zero.mp (by omega)
  exact ⟨a, b, c, d, e, f, g, k, by rw [h8]⟩

/-- Full literal decomposition of the serialized structure: 48 bytes, with
the unknown regions and the two trigger sub-reports abstracted. -/
lemma structBytes_eq (m : Model) :
    ∃ u0 u1 u2 u3 a0 a1 a2 a3 a4 a5 a6 a7 a8 a9 a10
      b0 b1 b2 b3 b4 b5 b6 b7 b8 b9 b10 w0 w1 w2 w3 w4 w5 w6 w7,
      structBytes m =
        [m.operating_mode % 256, m.physical_effect_control % 256,
         m.light_effect_control % 256, m.motor_right % 256, m.motor_left % 256,
         u0, u1, u2, u3,
         m.mute_button_led % 256, m.power_save_control % 256,
         a0, a1, a2, a3, a4, a5, a6, a7, a8, a9, a10,
         b0, b1, b2, b3, b4, b5, b6, b7, b8, b9, b10,
         w0, w1, w2, w3, w4, w5, w6, w7,
         m.lightbar_control % 256, m.lightbar_setup % 256,
         m.led_brightness % 256, m.player_leds % 256, m.lightbar_red % 256,
         m.lightbar_green % 256, m.lightbar_blue % 256] := by
  obtain ⟨u0, u1, u2, u3, hu⟩ :=
    list_four_eq (fitBytes 4 (m.unknown2.map (· % 256))) (fitBytes_length _ _)
  obtain ⟨a0, a1, a2, a3, a4, a5, a6, a7, a8, a9, a10, ha⟩ :=
    TriggerEffect.toBytes_eq m.right_trigger_effect
  obtain ⟨b0, b1, b2, b3, b4, b5, b6, b7, b8, b9, b10, hb⟩ :=
    TriggerEffect.toBytes_eq m.left_trigger_effect
  obtain ⟨w0, w1, w2, w3, w4, w5, w6, w7, hw⟩ :=
    list_eight_eq (fitBytes 8 (m.unknown3.map (· % 256))) (fitBytes_length _ _)
  refine ⟨u0, u1, u2, u3, a0, a1, a2, a3, a4, a5, a6, a7, a8, a9, a10,
    b0, b1, b2, b3, b4, b5, b6, b7, b8, b9, b10, w0, w1, w2, w3, w4, w5, w6, w7, ?_⟩
  simp [structBytes, hu, ha, hb, hw]

/-- Literal decomposition of the serialized structure when the unknown
regions are empty (their bytes are then the ctypes zero fill). -/
lemma structBytes_eq_of_empty (m : Model) (h2 : m.unknown2 = [])
    (h3 : m.unknown3 = []) :
    ∃ a0 a1 a2 a3 a4 a5 a6 a7 a8 a9 a10 b0 b1 b2 b3 b4 b5 b6 b7 b8 b9 b10,
      structBytes m =
        [m.operating_mode % 256, m.physical_effect_control % 256,
         m.light_effect_control % 256, m.motor_right % 256, m.motor_left % 256,
         0, 0, 0, 0,
         m.mute_button_led % 256, m.power_save_control % 256,
         a0, a1, a2, a3, a4, a5, a6, a7, a8, a9, a10,
         b0, b1, b2, b3, b4, b5, b6, b7, b8, b9, b10,
         0, 0, 0, 0, 0, 0, 0, 0,
         m.lightbar_control % 256, m.lightbar_setup % 256,
         m.led_brightness % 256, m.player_leds % 256, m.lightbar_red % 256,
         m.lightbar_green % 256, m.lightbar_blue % 256] := by
  obtain ⟨a0, a1, a2, a3, a4, a5, a6, a7, a8, a9, a10, ha⟩ :=
    TriggerEffect.toBytes_eq m.right_trigger_effect
  obtain ⟨b0, b1, b2, b3, b4, b5, b6, b7, b8, b9, b10, hb⟩ :=
    TriggerEffect.toBytes_eq m.left_trigger_effect
  refine ⟨a0, a1, a2, a3, a4, a5, a6, a7, a8, a9, a10,
    b0, b1, b2, b3, b4, b5, b6, b7, b8, b9, b10, ?_⟩
  simp [structBytes, h2, h3, fitBytes, ha, hb, List.replicate]

/-- Literal decomposition of the legacy packed encoder output: 64 bytes. -/
lemma packBytes_eq (m : Model) :
    ∃ a0 a1 a2 a3 a4 a5 a6 a7 a8 a9 a10 b0 b1 b2 b3 b4 b5 b6 b7 b8 b9 b10,
      packBytes m =
        [m.operating_mode % 256, m.light_effect_control % 256,
         m.lightbar_control % 256, m.motor_right % 256, m.motor_left % 256,
         0, 0, 0, 0,
         m.mute_button_led % 256, m.power_save_control % 256,
         a0, a1, a2, a3, a4, a5, a6, a7, a8, a9, a10,
         b0, b1, b2, b3, b4, b5, b6, b7, b8, b9, b10,
         0, 0, 0, 0, 0, 0, 0, 0, 0,
         m.lightbar_setup % 256, m.led_brightness % 256, m.player_leds % 256,
         m.lightbar_red % 256, m.lightbar_green % 256, m.lightbar_blue % 256,
         0, 0, 0, 0, 0, 0, 0, 0, 0, 0, 0, 0, 0, 0, 0, 0] := by
  obtain ⟨a0, a1, a2, a3, a4, a5, a6, a7, a8, a9, a10, ha⟩ :=
    TriggerEffect.toBytes_eq m.right_trigger_effect
  obtain ⟨b0, b1, b2, b3, b4, b5, b6, b7, b8, b9, b10, hb⟩ :=
    TriggerEffect.toBytes_eq m.left_trigger_effect
  refine ⟨a0, a1, a2, a3, a4, a5, a6, a7, a8, a9, a10,
    b0, b1, b2, b3, b4, b5, b6, b7, b8, b9, b10, ?_⟩
  simp [packBytes, ha, hb, List.replicate]

lemma structBytes_length (m : Model) : (structBytes m).length = 48 := by
  obtain ⟨_, _, _, _, _, _, _, _, _, _, _, _, _, _, _, _, _, _, _, _, _, _,
    _, _, _, _, _, _, _, _, _, _, _, _, hS⟩ := structBytes_eq m
  rw [hS]
  rfl

lemma sendNormalize_length (raw : List Nat) : (sendNormalize raw).length = 64 := by
  simp [sendNormalize]

/-! ### Claim theorems -/

/-- C1: for every model, the report buffer prepared for the device by the
send path is exactly the 64-byte fixed report size; the zero-valued model
yields 64 zero bytes; a raw override longer than 64 bytes is truncated to
64, and a shorter one is zero-padded on the right to 64. -/
theorem c1_report_size_and_raw_override (m : Model)
    (long short : List Nat) (hlong : 64 ≤ long.length)
    (hshort : short.length ≤ 64) :
    (sendNormalize (structBytes m)).length = 64
    ∧ sendNormalize (structBytes zeroModel) = List.replicate 64 0
    ∧ sendNormalize long = long.take 64
    ∧ sendNormalize short = short ++ List.replicate (64 - short.length) 0 := by
  refine ⟨sendNormalize_length _, by decide, ?_, ?_⟩
  · have h : (long.take 64).length = 64 := by
      simp [List.length_take]
      omega
    unfold sendNormalize
    rw [h]
    simp
  · unfold sendNormalize
    rw [List.take_of_length_le hshort]

/-- Witness for C1 at a concrete model and concrete long/short raw
overrides. -/
theorem c1_witness :
    (sendNormalize (structBytes playerLedsOnlyModel)).length = 64
    ∧ sendNormalize (structBytes zeroModel) = List.replicate 64 0
    ∧ sendNormalize (List.replicate 70 9) = (List.replicate 70 9).take 64
    ∧ sendNormalize [1, 2, 3] = [1, 2, 3] ++ List.replicate (64 - 3) 0 :=
  c1_report_size_and_raw_override playerLedsOnlyModel (List.replicate 70 9)
    [1, 2, 3] (by decide) (by decide)

/-- C2: the EffectExtended trigger-effect body is
`[255 - start_pos, keep_effect ? 2 : 0, 0, begin_force, middle_force,
end_force, 0, 0, max 1 (frequency / 2)]` for byte-ranged parameters, and
in particular the all-zero input gives `[255,0,0,0,0,0,0,0,1]` and
`(start_pos 255, keep_effect, forces 10/20/30, frequency 100)` gives
`[0,2,0,10,20,30,0,0,50]`. -/
theorem c2_effect_extended_body :
    (∀ (sp : Nat) (ke : Bool) (bf mf ef fr : Nat),
      sp < 256 → bf < 256 → mf < 256 → ef < 256 → fr < 256 →
        (TriggerEffect.effectExtended sp ke bf mf ef fr).data
          = [255 - sp, if ke then 0x02 else 0x00, 0x00, bf, mf, ef, 0x00,
             0x00, max 1 (fr / 2)])
    ∧ (TriggerEffect.effectExtended 0 false 0 0 0 0).data
        = [255, 0, 0, 0, 0, 0, 0, 0, 1]
    ∧ (TriggerEffect.effectExtended 255 true 10 20 30 100).data
        = [0, 2, 0, 10, 20, 30, 0, 0, 50] := by
  exact ⟨fun sp ke bf mf ef fr _ _ _ _ _ => rfl, by decide, by decide⟩

/-- Witness for C2 at concrete parameters. -/
theorem c2_witness :
    (TriggerEffect.effectExtended 3 true 1 2 3 7).data
      = [252, 2, 0, 1, 2, 3, 0, 0, 3] :=
  c2_effect_extended_body.1 3 true 1 2 3 7 (by decide) (by decide) (by decide)
    (by decide) (by decide)

/-- C3: trigger-effect encoding is total (it is a function defined for
every variant and parameter assignment, with no failure branch), always
produces exactly 11 bytes, byte 0 is the variant's tag (0x00, 0x01, 0x02,
0x06, 0x23, 0xfc for the default, ContinuousResistance, SectionResistance,
Vibrating, EffectExtended and Calibrate cases respectively), and the
bytes after the body are zero fill. -/
theorem c3_trigger_encoding_total_tagged :
    (∀ t : TriggerEffect, t.toBytes.length = 11)
    ∧ (∀ t : TriggerEffect, t.toBytes.getD 0 0 = t.tag)
    ∧ TriggerEffect.default.tag = 0x00
    ∧ (∀ sp f, (TriggerEffect.continuousResistance sp f).tag = 0x01)
    ∧ (∀ sp f, (TriggerEffect.sectionResistance sp f).tag = 0x02)
    ∧ (∀ fr ot, (TriggerEffect.vibrating fr ot).tag = 0x06)
    ∧ (∀ sp ke bf mf ef fr,
        (TriggerEffect.effectExtended sp ke bf mf ef fr).tag = 0x23)
    ∧ TriggerEffect.calibrate.tag = 0xfc
    ∧ (∀ t : TriggerEffect, ∀ j, 1 + t.data.length ≤ j → j < 11 →
        t.toBytes.getD j 0 = 0) := by
  refine ⟨TriggerEffect.toBytes_length, fun t => by cases t <;> rfl, rfl,
    fun _ _ => rfl, fun _ _ => rfl, fun _ _ => rfl,
    fun _ _ _ _ _ _ => rfl, rfl, fun t j h1 h2 => ?_⟩
  cases t <;> simp only [TriggerEffect.data, List.length_nil,
    List.length_cons] at h1 <;> interval_cases j <;> rfl

/-- Witness for C3's zero-fill clause at a concrete variant and index. -/
theorem c3_witness :
    (TriggerEffect.continuousResistance 240 255).toBytes.getD 5 0 = 0 :=
  c3_trigger_encoding_total_tagged.2.2.2.2.2.2.2.2
    (TriggerEffect.continuousResistance 240 255) 5 (by decide) (by decide)

/-- C4: the sequential layout computation over the `_fields_` table puts
`mute_button_led` at 0x09 (just after the 4-byte reserved region at
0x05..0x08), `player_leds` at 0x2c and the lightbar red/green/blue bytes
at 0x2d/0x2e/0x2f; the serialized structure writes those fields at those
offsets for every model; and the model with `player_leds = 0x07` and all
other fields zero serializes with byte 0x2c equal to 0x07 and every other
byte zero. -/
theorem c4_field_offsets :
    offsetOf "mute_button_led" = 0x09
    ∧ offsetOf "player_leds" = 0x2c
    ∧ offsetOf "lightbar_red" = 0x2d
    ∧ offsetOf "lightbar_green" = 0x2e
    ∧ offsetOf "lightbar_blue" = 0x2f
    ∧ (∀ m : Model,
        (structBytes m).getD 0x09 0 = m.mute_button_led % 256
        ∧ (structBytes m).getD 0x2c 0 = m.player_leds % 256
        ∧ (structBytes m).getD 0x2d 0 = m.lightbar_red % 256
        ∧ (structBytes m).getD 0x2e 0 = m.lightbar_green % 256
        ∧ (structBytes m).getD 0x2f 0 = m.lightbar_blue % 256)
    ∧ (structBytes playerLedsOnlyModel).getD 0x2c 0 = 0x07
    ∧ (∀ i, i < 48 → i ≠ 0x2c →
        (structBytes playerLedsOnlyModel).getD i 0 = 0) := by
  refine ⟨by decide, by decide, by decide, by decide, by decide,
    fun m => ?_, by decide, fun i hi hne => ?_⟩
  · obtain ⟨u0, u1, u2, u3, a0, a1, a2, a3, a4, a5, a6, a7, a8, a9, a10,
      b0, b1, b2, b3, b4, b5, b6, b7, b8, b9, b10,
      w0, w1, w2, w3, w4, w5, w6, w7, hS⟩ := structBytes_eq m
    rw [hS]
    exact ⟨rfl, rfl, rfl, rfl, rfl⟩
  · interval_cases i <;> first
      | rfl
      | exact absurd rfl hne

/-- Witness for C4's universally quantified byte at a concrete non-0x2c
index (hypotheses of the final clause discharged at i = 0). -/
theorem c4_witness :
    (structBytes playerLedsOnlyModel).getD 0 0 = 0 :=
  c4_field_offsets.2.2.2.2.2.2.2 0 (by decide) (by decide)

lemma sendAux_attempts_le (t : Nat → Option Nat) (r i : Nat) :
    numAttemptEvents (sendAux t i r).1 ≤ r := by
  induction r generalizing i with
  | zero => simp [sendAux, numAttemptEvents]
  | succ r ih =>
    unfold sendAux
    cases t i with
    | some n => simp [numAttemptEvents]
    | none =>
      simp only [numAttemptEvents]
      exact Nat.succ_le_succ (ih (i + 1))

/-- C5: the retry budget is fixed at 3 attempts for every transport; with
a transport that fails twice then succeeds, the loop succeeds on the third
attempt (loop index 2) and the result carries the byte count returned by
that successful write; with a transport that always fails, the loop makes
exactly 3 attempts, reconnects after each failed attempt, exactly 2 of the
reconnects fall in between attempts, and the result is the terminal
exhaustion of the budget instead of an unbounded retry. -/
theorem c5_send_retry_loop :
    NUM_ATTEMPTS = 3
    ∧ (∀ t, numAttemptEvents (sendToController t).1 ≤ NUM_ATTEMPTS)
    ∧ (∀ n, sendToController (failTwiceThen n)
        = ([.attempt 0, .reconnect, .attempt 1, .reconnect, .attempt 2],
           .success n))
    ∧ sendToController alwaysFail
        = ([.attempt 0, .reconnect, .attempt 1, .reconnect, .attempt 2,
            .reconnect], .exhausted)
    ∧ numAttemptEvents (sendToController alwaysFail).1 = 3
    ∧ reconnectsBetween (sendToController alwaysFail).1 = 2 := by
  refine ⟨rfl, fun t => sendAux_attempts_le t NUM_ATTEMPTS 0,
    fun n => rfl, rfl, rfl, rfl⟩

set_option maxRecDepth 4096 in
lemma toggleFlag_step (f : PlayerLEDFlag) (checked : Bool) :
    ∀ v : Nat, v < 256 → compositeIntact v →
      compositeIntact (toggleFlag v f checked) ∧ toggleFlag v f checked < 256 := by
  cases f <;> cases checked <;> decide

/-- C6: starting from any raw byte in which each PlayerLED composite flag
is wholly set or wholly clear, every sequence of checkbox toggles of the
named flags keeps bits 1 and 3 (INNER) equal and bits 0 and 4 (OUTER)
equal: no reachable state holds a strict subset of a composite flag's
bits. -/
theorem c6_composite_flag_invariant (v : Nat) (hv : v < 256)
    (hshape : compositeIntact v) (ops : List (PlayerLEDFlag × Bool)) :
    compositeIntact
      (ops.foldl (fun acc op => toggleFlag acc op.1 op.2) v) := by
  induction ops generalizing v with
  | nil => exact hshape
  | cons op rest ih =>
    have h := toggleFlag_step op.1 op.2 v hv hshape
    exact ih _ h.2 h.1

/-- Witness for C6: from raw byte 0b11011 (INNER, OUTER and bit 0 pair
fully set), toggling INNER off then CENTER on preserves the shape. -/
theorem c6_witness :
    compositeIntact
      ([(PlayerLEDFlag.inner, false), (PlayerLEDFlag.center, true)].foldl
        (fun acc op => toggleFlag acc op.1 op.2) 27) :=
  c6_composite_flag_invariant 27 (by decide) (by decide) _

/-- Counterexample to C7 as stated: from the initial raw byte 2 (a strict
subset of INNER's bits), toggling INNER on and then off yields 0, not the
original 2 — the round trip does not hold for every initial byte. -/
theorem c7_counterexample :
    ¬ (toggleFlag (toggleFlag 2 PlayerLEDFlag.inner true)
        PlayerLEDFlag.inner false = 2) := by
  decide

/-- C7 (amended): for every initial raw byte made of PlayerLED flag bits
only (bits 0..4) and with both INNER bits clear, toggling INNER on and
then off returns the raw byte to its original value. -/
theorem c7_inner_round_trip (v : Nat) (hv : v < 32)
    (hin : v &&& PlayerLED.INNER = 0) :
    toggleFlag (toggleFlag v PlayerLEDFlag.inner true)
      PlayerLEDFlag.inner false = v := by
  revert hin hv
  revert v
  decide

/-- Witness for the amended C7 at v = 0b10101. -/
theorem c7_witness :
    toggleFlag (toggleFlag 21 PlayerLEDFlag.inner true)
      PlayerLEDFlag.inner false = 21 :=
  c7_inner_round_trip 21 (by decide) (by decide)

/-- C8: both encoders keep the two reserved regions zero: for every model
whose unknown regions hold their initial empty value (the program never
mutates `unknown2`/`unknown3`, so every reachable model satisfies this),
the serialized structure has zero at offsets 0x05..0x08 and 0x21..0x28;
the legacy packed encoder zero-fills those offsets unconditionally (they
are pad bytes of its format string). -/
theorem c8_reserved_regions_zero (m : Model) (h2 : m.unknown2 = [])
    (h3 : m.unknown3 = []) :
    (∀ i, 5 ≤ i → i ≤ 8 → (structBytes m).getD i 0 = 0)
    ∧ (∀ i, 0x21 ≤ i → i ≤ 0x28 → (structBytes m).getD i 0 = 0)
    ∧ (∀ m2 : Model, ∀ i, 5 ≤ i → i ≤ 8 → (packBytes m2).getD i 0 = 0)
    ∧ (∀ m2 : Model, ∀ i, 0x21 ≤ i → i ≤ 0x28 → (packBytes m2).getD i 0 = 0) := by
  obtain ⟨a0, a1, a2, a3, a4, a5, a6, a7, a8, a9, a10,
    b0, b1, b2, b3, b4, b5, b6, b7, b8, b9, b10, hS⟩ :=
    structBytes_eq_of_empty m h2 h3
  refine ⟨fun i hlo hhi => ?_, fun i hlo hhi => ?_,
    fun m2 i hlo hhi => ?_, fun m2 i hlo hhi => ?_⟩
  · rw [hS]
    interval_cases i <;> rfl
  · rw [hS]
    interval_cases i <;> rfl
  · obtain ⟨c0, c1, c2, c3, c4, c5, c6, c7, c8, c9, c10,
      d0, d1, d2, d3, d4, d5, d6, d7, d8, d9, d10, hP⟩ := packBytes_eq m2
    rw [hP]
    interval_cases i <;> rfl
  · obtain ⟨c0, c1, c2, c3, c4, c5, c6, c7, c8, c9, c10,
      d0, d1, d2, d3, d4, d5, d6, d7, d8, d9, d10, hP⟩ := packBytes_eq m2
    rw [hP]
    interval_cases i <;> rfl

/-- Witness for C8 at the zero model and offset 0x05 / 0x21. -/
theorem c8_witness :
    (structBytes zeroModel).getD 5 0 = 0
    ∧ (structBytes zeroModel).getD 0x21 0 = 0 :=
  ⟨(c8_reserved_regions_zero zeroModel rfl rfl).1 5 (by decide) (by decide),
   (c8_reserved_regions_zero zeroModel rfl rfl).2.1 0x21 (by decide) (by decide)⟩

/-- C9: a mute-button-LED value outside the enumeration `{0, 1, 2}` or a
lightbar-setup value outside `{1, 2}` corresponds to no offered radio
item, so the mutation is rejected at mutation time (`none`); any accepted
mutation leaves the model encodable — encoding is a total function that
still produces the fixed 64-byte report, so nothing is rejected at encode
time. -/
theorem c9_enum_values_rejected_at_mutation :
    (∀ (m : Model) (v : Nat), v ∉ muteButtonValues →
      radioSetMuteButtonLed m v = none)
    ∧ (∀ (m : Model) (v : Nat), v ∉ lightbarSetupValues →
      radioSetLightbarSetup m v = none)
    ∧ (∀ (m mNew : Model) (v : Nat), radioSetMuteButtonLed m v = some mNew →
      (sendNormalize (structBytes mNew)).length = 64)
    ∧ (∀ (m mNew : Model) (v : Nat), radioSetLightbarSetup m v = some mNew →
      (sendNormalize (structBytes mNew)).length = 64) := by
  refine ⟨fun m v h => ?_, fun m v h => ?_,
    fun _ mNew _ _ => sendNormalize_length _,
    fun _ mNew _ _ => sendNormalize_length _⟩
  · simp [radioSetMuteButtonLed, h]
  · simp [radioSetLightbarSetup, h]

/-- Witness for C9: the illegal values 3 (mute button) and 0 (lightbar
setup) are rejected on the zero model, and the accepted mutation to mute
button 2 leaves a model that encodes to 64 bytes. -/
theorem c9_witness :
    radioSetMuteButtonLed zeroModel 3 = none
    ∧ radioSetLightbarSetup zeroModel 0 = none
    ∧ (sendNormalize (structBytes { zeroModel with mute_button_led := 2 })).length
        = 64 :=
  ⟨c9_enum_values_rejected_at_mutation.1 zeroModel 3 (by decide),
   c9_enum_values_rejected_at_mutation.2.1 zeroModel 0 (by decide),
   c9_enum_values_rejected_at_mutation.2.2.1 zeroModel
     { zeroModel with mute_button_led := 2 } 2 (by decide)⟩

/-- Counterexample to C10 as stated: for the model with
`light_effect_control = 1` and all other fields zero, the legacy packed
encoder and the padded structure encoder produce different 64-byte
reports (they already differ at offset 0x01). -/
theorem c10_counterexample :
    packBytes lightEffectOnlyModel ≠ buildPadded lightEffectOnlyModel := by
  decide

/-- C10 (amended): for every model with empty unknown regions, the two
encoders agree at every offset except 0x01, 0x02 and 0x29; there the
legacy packed encoder writes `light_effect_control`, `lightbar_control`
and zero respectively, while the structure encoder writes
`physical_effect_control`, `light_effect_control` and `lightbar_control`. -/
theorem c10_encoders_agree_except_three (m : Model) (h2 : m.unknown2 = [])
    (h3 : m.unknown3 = []) :
    (∀ i, i < 64 → i ≠ 0x01 → i ≠ 0x02 → i ≠ 0x29 →
      (packBytes m).getD i 0 = (buildPadded m).getD i 0)
    ∧ (packBytes m).getD 0x01 0 = m.light_effect_control % 256
    ∧ (buildPadded m).getD 0x01 0 = m.physical_effect_control % 256
    ∧ (packBytes m).getD 0x02 0 = m.lightbar_control % 256
    ∧ (buildPadded m).getD 0x02 0 = m.light_effect_control % 256
    ∧ (packBytes m).getD 0x29 0 = 0
    ∧ (buildPadded m).getD 0x29 0 = m.lightbar_control % 256 := by
  obtain ⟨a0, a1, a2, a3, a4, a5, a6, a7, a8, a9, a10, ha⟩ :=
    TriggerEffect.toBytes_eq m.right_trigger_effect
  obtain ⟨b0, b1, b2, b3, b4, b5, b6, b7, b8, b9, b10, hb⟩ :=
    TriggerEffect.toBytes_eq m.left_trigger_effect
  have hP : packBytes m =
      [m.operating_mode % 256, m.light_effect_control % 256,
       m.lightbar_control % 256, m.motor_right % 256, m.motor_left % 256,
       0, 0, 0, 0,
       m.mute_button_led % 256, m.power_save_control % 256,
       a0, a1, a2, a3, a4, a5, a6, a7, a8, a9, a10,
       b0, b1, b2, b3, b4, b5, b6, b7, b8, b9, b10,
       0, 0, 0, 0, 0, 0, 0, 0, 0,
       m.lightbar_setup % 256, m.led_brightness % 256, m.player_leds % 256,
       m.lightbar_red % 256, m.lightbar_green % 256, m.lightbar_blue % 256,
       0, 0, 0, 0, 0, 0, 0, 0, 0, 0, 0, 0, 0, 0, 0, 0] := by
    simp [packBytes, ha, hb, List.replicate]
  have hB : buildPadded m =
      [m.operating_mode % 256, m.physical_effect_control % 256,
       m.light_effect_control % 256, m.motor_right % 256, m.motor_left % 256,
       0, 0, 0, 0,
       m.mute_button_led % 256, m.power_save_control % 256,
       a0, a1, a2, a3, a4, a5, a6, a7, a8, a9, a10,
       b0, b1, b2, b3, b4, b5, b6, b7, b8, b9, b10,
       0, 0, 0, 0, 0, 0, 0, 0,
       m.lightbar_control % 256, m.lightbar_setup % 256,
       m.led_brightness % 256, m.player_leds % 256, m.lightbar_red % 256,
       m.lightbar_green % 256, m.lightbar_blue % 256,
       0, 0, 0, 0, 0, 0, 0, 0, 0, 0, 0, 0, 0, 0, 0, 0] := by
    simp [buildPadded, structBytes, h2, h3, fitBytes, ha, hb, List.replicate]
  rw [hP, hB]
  refine ⟨fun i hi hx1 hx2 hx3 => ?_, rfl, rfl, rfl, rfl, rfl, rfl⟩
  interval_cases i <;> first
    | rfl
    | exact absurd rfl hx1
    | exact absurd rfl hx2
    | exact absurd rfl hx3

/-- Witness for the amended C10 at the zero model and offset 0. -/
theorem c10_witness :
    (packBytes zeroModel).getD 0 0 = (buildPadded zeroModel).getD 0 0 :=
  (c10_encoders_agree_except_three zeroModel rfl rfl).1 0 (by decide)
    (by decide) (by decide) (by decide)

end Ds5ctl
